import Mathlib

/-!
Shallow embedding of the "Piring Sehat" backend (Express + Supabase).

Tables are modelled as lists of rows inside a `DB` record; Supabase query
steps (`filter`/`single`/`maybeSingle`/`insert`/`update`/`delete`) are
modelled as pure list operations; fallible service functions return
`Except`.  Store interactions that matter for frame properties are logged
as `StoreOp` values and interpreted by `applyOp`.
-/

deriving instance DecidableEq for Except

namespace PiringSehat

/-- One row of the `users` table. -/
structure UserRow where
  id : Nat
  firebase_uid : String
  email : Option String
  username : Option String
  role : String
  daily_calorie_target : Option Nat
deriving DecidableEq, Repr

/-- One row of the `forums` table. -/
structure ForumRow where
  id : Nat
  user_id : Nat
  title : String
  content : String
deriving DecidableEq, Repr

/-- One row of the `forum_comments` table. -/
structure CommentRow where
  id : Nat
  forum_id : Nat
  user_id : Nat
  content : String
  parent_comment_id : Option Nat
deriving DecidableEq, Repr

/-- One row of the `food_logs` table.  `logged_at` is the store-assigned
insertion timestamp used by the `ORDER BY logged_at ASC` reads. -/
structure FoodLogRow where
  id : Nat
  user_id : String
  date : String
  food_name_custom : String
  calories : Nat
  food_id : Option Nat
  logged_at : Nat
deriving DecidableEq, Repr

/-- One row of the `makanan` (food catalog) table. -/
structure MakananRow where
  id : Nat
  name : String
  calories : Nat
deriving DecidableEq, Repr

/-- The relational data store, plus the store-internal counters that stand
for serial-id assignment and the `now()` default of `logged_at`. -/
structure DB where
  users : List UserRow
  forums : List ForumRow
  forum_comments : List CommentRow
  food_logs : List FoodLogRow
  makanan : List MakananRow
  nextUserId : Nat
  nextFoodLogId : Nat
  clock : Nat
  defaultRole : String
deriving DecidableEq, Repr

/-- A logged data-store interaction. -/
inductive StoreOp where
  | selectUsersByUid (uid : String)
  | selectMakanan
  | insertUserRow (row : UserRow)
  | insertFoodLogRow (row : FoodLogRow)
  | deleteForumById (id : Nat)
deriving DecidableEq, Repr

/-- Reads leave the store untouched; anything else is a write. -/
def StoreOp.isRead : StoreOp → Bool
  | .selectUsersByUid _ => true
  | .selectMakanan => true
  | .insertUserRow _ => false
  | .insertFoodLogRow _ => false
  | .deleteForumById _ => false

/-- Interpret one store operation against the data store. -/
def applyOp (db : DB) : StoreOp → DB
  | .selectUsersByUid _ => db
  | .selectMakanan => db
  | .insertUserRow r => { db with users := db.users ++ [r] }
  | .insertFoodLogRow r => { db with food_logs := db.food_logs ++ [r] }
  | .deleteForumById i => { db with forums := db.forums.filter (fun f => !(f.id == i)) }

/-- Interpret a trace of store operations, left to right. -/
def applyOps (db : DB) (ops : List StoreOp) : DB :=
  ops.foldl applyOp db

/-- PostgREST `.single()`: succeeds only when the filtered result holds
exactly one row; zero rows and multiple rows are both errors. -/
def single {α : Type} : List α → Except String α
  | [r] => .ok r
  | [] => .error "no rows returned"
  | _ => .error "multiple rows returned"

/-- PostgREST `.maybeSingle()`: zero rows is `none`, one row is `some`,
multiple rows is an error. -/
def maybeSingle {α : Type} : List α → Except String (Option α)
  | [] => .ok none
  | [r] => .ok (some r)
  | _ => .error "multiple rows returned"

/-- Service-level error carrying the optional `statusCode` that the route
boundary reads (`error.statusCode || 500`). -/
structure SvcError where
  statusCode : Option Nat
  message : String
deriving DecidableEq, Repr

/-- Status code attached to a failed result, if any. -/
def errStatus {α : Type} : Except SvcError α → Option Nat
  | .error e => e.statusCode
  | .ok _ => none

/-- `true` exactly on successful results. -/
def svcOk {α : Type} : Except SvcError α → Bool
  | .ok _ => true
  | .error _ => false

/-- Payload of a verified identity token (`decoded.uid`). -/
structure DecodedToken where
  uid : String
deriving DecidableEq, Repr

/-- The principal the gate attaches to the request (`req.user`). -/
structure Principal where
  firebaseUid : String
  supabaseUserId : Nat
  role : String
deriving DecidableEq, Repr

/-- Outcome of the auth middleware: a 401-style rejection or an admitted
request carrying the principal. -/
inductive AuthOutcome where
  | reject (status : Nat) (message : String)
  | accept (principal : Principal)
deriving DecidableEq, Repr

/-- Outcome plus the observable effect traces of one middleware run:
which tokens were submitted to the identity verifier and which store
operations were issued. -/
structure AuthResult where
  outcome : AuthOutcome
  verifierCalls : List String
  storeOps : List StoreOp
deriving DecidableEq, Repr

/-- `authHeader.startsWith('Bearer ') ? authHeader.slice(7) : null`,
followed by the JS falsy check `if (!token)` which also rejects the empty
token string.  Strings are handled at the character-list level so the
definition evaluates by kernel reduction. -/
def extractToken (authHeader : Option String) : Option String :=
  let h := (authHeader.getD "").data
  if ("Bearer ".data).isPrefixOf h then
    let t := h.drop 7
    if t = [] then none else some (String.mk t)
  else none

/-- `requireAuth` middleware from `src/middleware/auth.js`: extract the
bearer token, verify it, resolve the local user row by `firebase_uid`
(a `.single()` select of `id, role`), and either reject with 401 or attach
the principal. -/
def requireAuth (verify : String → Option DecodedToken) (db : DB)
    (authHeader : Option String) : AuthResult :=
  match extractToken authHeader with
  | none => ⟨.reject 401 "Unauthorized: missing token", [], []⟩
  | some token =>
    match verify token with
    | none => ⟨.reject 401 "Unauthorized: invalid token", [token], []⟩
    | some decoded =>
      match single (db.users.filter (fun u => u.firebase_uid == decoded.uid)) with
      | .error _ =>
        ⟨.reject 401 "User tidak ditemukan di database", [token],
          [.selectUsersByUid decoded.uid]⟩
      | .ok u =>
        ⟨.accept ⟨decoded.uid, u.id, u.role⟩, [token],
          [.selectUsersByUid decoded.uid]⟩

/-- `getForumOwnerAndRole` from the forums service: `SELECT id, user_id
FROM forums WHERE id = $1` via `.maybeSingle()` (the projection to the two
columns is widened to the whole row, which the callers only inspect). -/
def getForumOwnerAndRole (db : DB) (id : Nat) : Except String (Option ForumRow) :=
  maybeSingle (db.forums.filter (fun f => f.id == id))

/-- `getCommentWithOwner` from the forum-comments service: `SELECT id,
user_id FROM forum_comments WHERE id = $1` via `.maybeSingle()`. -/
def getCommentWithOwner (db : DB) (commentId : Nat) : Except String (Option CommentRow) :=
  maybeSingle (db.forum_comments.filter (fun c => c.id == commentId))

/-- `updateForum` service: fetch the owner row, 404 when absent, 403 when
the requester is neither the owner nor an admin, otherwise update the
provided fields (`title`/`content` only when non-null) and return the
updated row. -/
def updateForum (db : DB) (forumId requesterId : Nat) (requesterRole : String)
    (title content : Option String) : Except SvcError (ForumRow × DB) :=
  match getForumOwnerAndRole db forumId with
  | .error e => .error ⟨none, e⟩
  | .ok none => .error ⟨some 404, "Forum tidak ditemukan"⟩
  | .ok (some forum) =>
    let isOwner := forum.user_id == requesterId
    let isAdmin := requesterRole == "admin"
    if !isOwner && !isAdmin then
      .error ⟨some 403, "Tidak memiliki izin untuk mengedit forum ini"⟩
    else
      let applyPayload := fun (f : ForumRow) =>
        { f with title := title.getD f.title, content := content.getD f.content }
      .ok (applyPayload forum,
        { db with forums := db.forums.map (fun f => if f.id == forumId then applyPayload f else f) })

/-- `deleteForum` service: fetch the owner row, 404 when absent, 403 when
the requester is neither the owner nor an admin, otherwise delete the row. -/
def deleteForum (db : DB) (forumId requesterId : Nat) (requesterRole : String) :
    Except SvcError DB :=
  match getForumOwnerAndRole db forumId with
  | .error e => .error ⟨none, e⟩
  | .ok none => .error ⟨some 404, "Forum tidak ditemukan"⟩
  | .ok (some forum) =>
    let isOwner := forum.user_id == requesterId
    let isAdmin := requesterRole == "admin"
    if !isOwner && !isAdmin then
      .error ⟨some 403, "Tidak memiliki izin untuk menghapus forum ini"⟩
    else
      .ok { db with forums := db.forums.filter (fun f => !(f.id == forumId)) }

/-- `updateComment` service: fetch the comment, 404 when absent, 403 when
the requester is neither the owner nor an admin, otherwise set `content`
and return the updated row. -/
def updateComment (db : DB) (commentId requesterId : Nat) (requesterRole : String)
    (content : String) : Except SvcError (CommentRow × DB) :=
  match getCommentWithOwner db commentId with
  | .error e => .error ⟨none, e⟩
  | .ok none => .error ⟨some 404, "Komentar tidak ditemukan"⟩
  | .ok (some comment) =>
    let isOwner := comment.user_id == requesterId
    let isAdmin := requesterRole == "admin"
    if !isOwner && !isAdmin then
      .error ⟨some 403, "Tidak memiliki izin untuk mengedit komentar ini"⟩
    else
      .ok ({ comment with content := content },
        { db with forum_comments :=
            db.forum_comments.map (fun c => if c.id == commentId then { c with content := content } else c) })

/-- `deleteComment` service: fetch the comment, 404 when absent, 403 when
the requester is neither the owner nor an admin, otherwise delete it. -/
def deleteComment (db : DB) (commentId requesterId : Nat) (requesterRole : String) :
    Except SvcError DB :=
  match getCommentWithOwner db commentId with
  | .error e => .error ⟨none, e⟩
  | .ok none => .error ⟨some 404, "Komentar tidak ditemukan"⟩
  | .ok (some comment) =>
    let isOwner := comment.user_id == requesterId
    let isAdmin := requesterRole == "admin"
    if !isOwner && !isAdmin then
      .error ⟨some 403, "Tidak memiliki izin untuk menghapus komentar ini"⟩
    else
      .ok { db with forum_comments := db.forum_comments.filter (fun c => !(c.id == commentId)) }

/-- Insertion step of an insertion sort on `logged_at` (ascending). -/
def insertByLoggedAt (r : FoodLogRow) : List FoodLogRow → List FoodLogRow
  | [] => [r]
  | x :: xs => if r.logged_at ≤ x.logged_at then r :: x :: xs else x :: insertByLoggedAt r xs

/-- `ORDER BY logged_at ASC`, modelled as an insertion sort. -/
def sortByLoggedAt : List FoodLogRow → List FoodLogRow
  | [] => []
  | x :: xs => insertByLoggedAt x (sortByLoggedAt xs)

/-- `getFoodLogsByDate`: `SELECT * FROM food_logs WHERE user_id = $1 AND
date = $2 ORDER BY logged_at ASC`. -/
def getFoodLogsByDate (db : DB) (userId date : String) : List FoodLogRow :=
  sortByLoggedAt (db.food_logs.filter (fun r => r.user_id == userId && r.date == date))

/-- `addFoodLog`: `INSERT INTO food_logs (user_id, date, food_name_custom,
calories, food_id) VALUES (...) RETURNING *`; the store assigns the id and
the `logged_at` timestamp. -/
def addFoodLog (db : DB) (userId date foodName : String) (calories : Nat)
    (foodId : Option Nat) : FoodLogRow × DB :=
  let row : FoodLogRow :=
    { id := db.nextFoodLogId, user_id := userId, date := date,
      food_name_custom := foodName, calories := calories, food_id := foodId,
      logged_at := db.clock }
  (row, { db with food_logs := db.food_logs ++ [row],
                  nextFoodLogId := db.nextFoodLogId + 1, clock := db.clock + 1 })

/-- `needle` occurs as a contiguous substring of `hay` (SQL `%needle%`). -/
def charsContains (needle : List Char) : List Char → Bool
  | [] => needle.isEmpty
  | c :: t => needle.isPrefixOf (c :: t) || charsContains needle t

/-- Supabase `.ilike('name', pat)` with a `%w%` pattern: case-insensitive
substring match. -/
def ilikeContains (name pat : List Char) : Bool :=
  charsContains (pat.map Char.toLower) (name.map Char.toLower)

/-- JS `String.prototype.trim()`: strip trailing then leading whitespace. -/
def trimChars (cs : List Char) : List Char :=
  ((cs.reverse.dropWhile Char.isWhitespace).reverse).dropWhile Char.isWhitespace

/-- `normalized.split(/\s+/)[0]` on an already-trimmed string: the leading
run of non-whitespace characters. -/
def firstWordChars (normalized : List Char) : List Char :=
  normalized.takeWhile (fun c => !c.isWhitespace)

/-- `searchFoodsByName` service: trim the query, return `[]` without any
store call when it trims to empty, otherwise `ILIKE` the catalog on the
first whitespace-delimited word and take `limit` rows.  The issued store
operations are returned alongside the rows. -/
def searchFoodsByName (catalog : List MakananRow) (query : String) (limit : Nat) :
    List StoreOp × List MakananRow :=
  let normalized := trimChars query.data
  if normalized = [] then ([], [])
  else
    let firstWord := firstWordChars normalized
    ([.selectMakanan],
      (catalog.filter (fun m => ilikeContains m.name.data firstWord)).take limit)

/-- `getAllFoods` service: `SELECT * FROM makanan LIMIT $1`. -/
def getAllFoods (catalog : List MakananRow) (limit : Nat) : List MakananRow :=
  catalog.take limit

/-- An HTTP JSON response: status plus either a data payload or an error
message. -/
structure Resp (α : Type) where
  status : Nat
  data : Option α
  error : Option String
deriving DecidableEq, Repr

/-- Route `GET /api/foods/search`: when the query is absent, empty or
whitespace-only, return all foods with default limit 10; otherwise search
by name with default limit 5. -/
def routeFoodsSearch (catalog : List MakananRow) (query : Option String)
    (limit : Option Nat) : Resp (List MakananRow) :=
  if (match query with
      | none => true
      | some q => (trimChars q.data).isEmpty) then
    ⟨200, some (getAllFoods catalog (limit.getD 10)), none⟩
  else
    ⟨200, some (searchFoodsByName catalog (query.getD "") (limit.getD 5)).2, none⟩

/-- JS `email.split('@')[0]`: the characters before the first `@`. -/
def emailLocalPart (e : String) : String :=
  String.mk (e.data.takeWhile (fun c => !(c == '@')))

/-- JS truthiness of an optional string: present and non-empty. -/
def jsTruthy (v : Option String) : Bool :=
  match v with
  | some s => !(s == "")
  | none => false

/-- JS `v || fallback` on optional strings. -/
def jsStringOr (v fallback : Option String) : Option String :=
  match v with
  | some s => if s = "" then fallback else some s
  | none => fallback

/-- `username || (email ? email.split('@')[0] : null)`. -/
def effectiveUsernameOf (username email : Option String) : Option String :=
  jsStringOr username
    (if jsTruthy email then some (emailLocalPart (email.getD "")) else none)

/-- `syncFirebaseUser` service: reject an empty `firebase_uid`, look the
uid up with `.maybeSingle()`, return the existing row's id unchanged when
found, otherwise insert one new row (store-assigned id and default role)
and return its id. -/
def syncFirebaseUser (db : DB) (firebase_uid : String)
    (email username : Option String) : Except String (Nat × DB) :=
  if firebase_uid = "" then .error "firebase_uid is required"
  else
    match maybeSingle (db.users.filter (fun u => u.firebase_uid == firebase_uid)) with
    | .error e => .error e
    | .ok (some existing) => .ok (existing.id, db)
    | .ok none =>
      let row : UserRow :=
        { id := db.nextUserId, firebase_uid := firebase_uid, email := email,
          username := effectiveUsernameOf username email,
          role := db.defaultRole, daily_calorie_target := none }
      .ok (row.id, { db with users := db.users ++ [row], nextUserId := db.nextUserId + 1 })

/-- Result shape of a Supabase call: `{ data, error }`. -/
structure SupaResult (α : Type) where
  data : Option α
  error : Option String
deriving DecidableEq, Repr

/-- One row returned by the `get_daily_nutrition` remote procedure. -/
structure RpcNutritionRow where
  total_protein : Option Nat
  total_carbs : Option Nat
  total_fat : Option Nat
deriving DecidableEq, Repr

/-- The `{protein, carbs, fat}` summary object. -/
structure NutritionSummary where
  protein : Nat
  carbs : Nat
  fat : Nat
deriving DecidableEq, Repr

/-- `getDailyNutritionSummary` service (rpc variant): when the store call
reports an error, or returns no row, yield the zero summary; otherwise
read the totals off the first row with `|| 0` defaults.  The surrounding
`try/catch` also maps any unexpected failure to the zero summary, so the
function is total and never throws. -/
def getDailyNutritionSummary (res : SupaResult (List RpcNutritionRow)) : NutritionSummary :=
  match res.error with
  | some _ => ⟨0, 0, 0⟩
  | none =>
    match (res.data.getD []).head? with
    | none => ⟨0, 0, 0⟩
    | some row => ⟨row.total_protein.getD 0, row.total_carbs.getD 0, row.total_fat.getD 0⟩

/-- JS falsiness of an optional string query parameter. -/
def jsFalsyStr (v : Option String) : Bool :=
  match v with
  | none => true
  | some s => s == ""

/-- Route `GET /api/food-logs/summary/nutrition`: 400 when `userId` or
`date` is missing, otherwise 200 with the summary produced by
`getDailyNutritionSummary` on the store result. -/
def routeNutritionSummary (userId date : Option String)
    (res : SupaResult (List RpcNutritionRow)) : Resp NutritionSummary :=
  if jsFalsyStr userId || jsFalsyStr date then
    ⟨400, none, some "userId dan date wajib diisi"⟩
  else
    ⟨200, some (getDailyNutritionSummary res), none⟩

/-- The `users` table keyed by `firebase_uid`: no duplicate keys. -/
abbrev UsersWF (db : DB) : Prop := (db.users.map (fun u => u.firebase_uid)).Nodup

/-- The `forums` table keyed by `id`: no duplicate keys. -/
abbrev ForumsWF (db : DB) : Prop := (db.forums.map (fun f => f.id)).Nodup

/-- The `forum_comments` table keyed by `id`: no duplicate keys. -/
abbrev CommentsWF (db : DB) : Prop := (db.forum_comments.map (fun c => c.id)).Nodup

/-- Concrete store fixture used by the witnesses: one user (local id 7,
uid `u1`), one forum (id 1 owned by user 10), one comment (id 2 owned by
user 20). -/
def exDb : DB :=
  ⟨[⟨7, "u1", none, none, "user", none⟩], [⟨1, 10, "t", "c"⟩],
    [⟨2, 1, 20, "hi", none⟩], [], [], 100, 200, 0, "user"⟩

/-- Concrete identity verifier fixture: accepts exactly the token `tok`,
resolving it to subject `u1`. -/
def exVerify : String → Option DecodedToken :=
  fun t => if t == "tok" then some ⟨"u1"⟩ else none

/-- Concrete empty store fixture. -/
def exEmptyDb : DB := ⟨[], [], [], [], [], 0, 0, 0, "user"⟩

/-- Concrete food-catalog fixture. -/
def exCatalog : List MakananRow :=
  [⟨1, "Nasi Goreng", 300⟩, ⟨2, "Ayam Bakar", 250⟩, ⟨3, "nasi uduk", 280⟩]

/-! ## Helper lemmas -/

theorem applyOp_of_isRead (db : DB) (op : StoreOp) (h : op.isRead = true) :
    applyOp db op = db := by
  cases op <;> first
    | rfl
    | simp [StoreOp.isRead] at h

theorem applyOps_of_readonly (ops : List StoreOp) :
    ∀ db : DB, (∀ op ∈ ops, op.isRead = true) → applyOps db ops = db := by
  induction ops with
  | nil => intro db _; rfl
  | cons o t ih =>
    intro db h
    have ho : applyOp db o = db := applyOp_of_isRead db o (h o (by simp))
    calc applyOps db (o :: t) = applyOps (applyOp db o) t := rfl
      _ = applyOps db t := by rw [ho]
      _ = db := ih db (fun op hop => h op (by simp [hop]))

theorem filter_eq_nil_of_find?_none {α : Type} (p : α → Bool) (l : List α)
    (h : l.find? p = none) : l.filter p = [] :=
  List.filter_eq_nil_iff.mpr (List.find?_eq_none.mp h)

theorem filter_key_singleton {α β : Type} [BEq β] [LawfulBEq β] (key : α → β) (k : β) :
    ∀ l : List α, (l.map key).Nodup →
      ∀ u, l.find? (fun a => key a == k) = some u →
        l.filter (fun a => key a == k) = [u] := by
  intro l
  induction l with
  | nil => intro _ u h; simp at h
  | cons a t ih =>
    intro hnd u hf
    have hnd' : (t.map key).Nodup := (List.nodup_cons.mp (by simpa using hnd)).2
    have hka : key a ∉ t.map key := (List.nodup_cons.mp (by simpa using hnd)).1
    by_cases hpa : (key a == k) = true
    · have hfc : (a :: t).find? (fun a => key a == k) = some a := by
        simp [List.find?, hpa]
      rw [hfc] at hf
      injection hf with hu
      subst hu
      have hflt : t.filter (fun a => key a == k) = [] := by
        apply List.filter_eq_nil_iff.mpr
        intro b hb hkb
        apply hka
        have hbk : key b = k := by simpa using hkb
        have hak : key a = k := by simpa using hpa
        rw [hak, ← hbk]
        exact List.mem_map_of_mem key hb
      simp [List.filter_cons, hpa, hflt]
    · have hpa' : (key a == k) = false := by simpa using hpa
      have hfc : (a :: t).find? (fun a => key a == k) = t.find? (fun a => key a == k) := by
        simp [List.find?, hpa']
      rw [hfc] at hf
      simp only [List.filter_cons, hpa', Bool.false_eq_true, if_false]
      exact ih hnd' u hf

theorem keyedLookup_cases {α β : Type} [BEq β] [LawfulBEq β] (key : α → β) (k : β)
    (l : List α) (h : (l.map key).Nodup) :
    (l.find? (fun a => key a == k) = none ∧ l.filter (fun a => key a == k) = []) ∨
      (∃ u, l.find? (fun a => key a == k) = some u ∧ l.filter (fun a => key a == k) = [u]) := by
  cases hf : l.find? (fun a => key a == k) with
  | none => exact .inl ⟨rfl, filter_eq_nil_of_find?_none _ _ hf⟩
  | some u => exact .inr ⟨u, rfl, filter_key_singleton key k l h u hf⟩

theorem mem_insertByLoggedAt (r a : FoodLogRow) :
    ∀ l : List FoodLogRow, a ∈ insertByLoggedAt r l ↔ a = r ∨ a ∈ l := by
  intro l
  induction l with
  | nil => simp [insertByLoggedAt]
  | cons x xs ih =>
    by_cases h : r.logged_at ≤ x.logged_at
    · simp [insertByLoggedAt, h]
    · simp [insertByLoggedAt, h, ih]
      tauto

theorem mem_sortByLoggedAt (a : FoodLogRow) :
    ∀ l : List FoodLogRow, a ∈ sortByLoggedAt l ↔ a ∈ l := by
  intro l
  induction l with
  | nil => simp [sortByLoggedAt]
  | cons x xs ih => simp [sortByLoggedAt, mem_insertByLoggedAt, ih]

theorem dropWhile_eq_self_of_forall {α : Type} (p : α → Bool) (l : List α)
    (h : ∀ a ∈ l, p a = false) : l.dropWhile p = l := by
  cases l with
  | nil => rfl
  | cons a t => simp [List.dropWhile_cons, h a (by simp)]

theorem takeWhile_ne_nil_of_head {α : Type} (p : α → Bool) (l : List α)
    (hl : l ≠ []) (hp : p (l.head hl) = true) : l.takeWhile p ≠ [] := by
  cases l with
  | nil => exact absurd rfl hl
  | cons a t =>
    simp only [List.head_cons] at hp
    simp [List.takeWhile_cons, hp]

theorem forumLookup_cases (db : DB) (fid : Nat) (h : ForumsWF db) :
    (db.forums.find? (fun f => f.id == fid) = none ∧
        db.forums.filter (fun f => f.id == fid) = []) ∨
      (∃ u, db.forums.find? (fun f => f.id == fid) = some u ∧
        db.forums.filter (fun f => f.id == fid) = [u]) :=
  keyedLookup_cases (fun f => f.id) fid db.forums h

theorem commentLookup_cases (db : DB) (cid : Nat) (h : CommentsWF db) :
    (db.forum_comments.find? (fun c => c.id == cid) = none ∧
        db.forum_comments.filter (fun c => c.id == cid) = []) ∨
      (∃ u, db.forum_comments.find? (fun c => c.id == cid) = some u ∧
        db.forum_comments.filter (fun c => c.id == cid) = [u]) :=
  keyedLookup_cases (fun c => c.id) cid db.forum_comments h

theorem userLookup_cases (db : DB) (uid : String) (h : UsersWF db) :
    (db.users.find? (fun u => u.firebase_uid == uid) = none ∧
        db.users.filter (fun u => u.firebase_uid == uid) = []) ∨
      (∃ u, db.users.find? (fun u => u.firebase_uid == uid) = some u ∧
        db.users.filter (fun u => u.firebase_uid == uid) = [u]) :=
  keyedLookup_cases (fun u => u.firebase_uid) uid db.users h

/-! ## Claim theorems -/

/-- C1: for update/delete on forums and forum comments that exist, the
operation succeeds exactly when the requester is the recorded owner or
holds the "admin" role (no other condition grants access), and fails with
status 403 exactly when the resource exists but the requester is neither
owner nor admin. -/
theorem claim_C1_owner_or_admin_policy (db : DB) (fid cid rid : Nat) (role : String)
    (title content : Option String) (ccontent : String)
    (hF : ForumsWF db) (hC : CommentsWF db) :
    (svcOk (updateForum db fid rid role title content) = true ↔
      ∃ f, db.forums.find? (fun f => f.id == fid) = some f ∧
        (f.user_id = rid ∨ role = "admin"))
    ∧ (errStatus (updateForum db fid rid role title content) = some 403 ↔
      ∃ f, db.forums.find? (fun f => f.id == fid) = some f ∧
        f.user_id ≠ rid ∧ role ≠ "admin")
    ∧ (svcOk (deleteForum db fid rid role) = true ↔
      ∃ f, db.forums.find? (fun f => f.id == fid) = some f ∧
        (f.user_id = rid ∨ role = "admin"))
    ∧ (errStatus (deleteForum db fid rid role) = some 403 ↔
      ∃ f, db.forums.find? (fun f => f.id == fid) = some f ∧
        f.user_id ≠ rid ∧ role ≠ "admin")
    ∧ (svcOk (updateComment db cid rid role ccontent) = true ↔
      ∃ c, db.forum_comments.find? (fun c => c.id == cid) = some c ∧
        (c.user_id = rid ∨ role = "admin"))
    ∧ (errStatus (updateComment db cid rid role ccontent) = some 403 ↔
      ∃ c, db.forum_comments.find? (fun c => c.id == cid) = some c ∧
        c.user_id ≠ rid ∧ role ≠ "admin")
    ∧ (svcOk (deleteComment db cid rid role) = true ↔
      ∃ c, db.forum_comments.find? (fun c => c.id == cid) = some c ∧
        (c.user_id = rid ∨ role = "admin"))
    ∧ (errStatus (deleteComment db cid rid role) = some 403 ↔
      ∃ c, db.forum_comments.find? (fun c => c.id == cid) = some c ∧
        c.user_id ≠ rid ∧ role ≠ "admin") := by
  rcases forumLookup_cases db fid hF with ⟨hfind, hfilt⟩ | ⟨f, hfind, hfilt⟩ <;>
    rcases commentLookup_cases db cid hC with ⟨hcfind, hcfilt⟩ | ⟨c, hcfind, hcfilt⟩
  · simp [updateForum, deleteForum, updateComment, deleteComment,
      getForumOwnerAndRole, getCommentWithOwner, hfilt, hcfilt, maybeSingle,
      svcOk, errStatus, hfind, hcfind]
  · by_cases h1 : c.user_id = rid <;> by_cases h2 : role = "admin" <;>
      simp [updateForum, deleteForum, updateComment, deleteComment,
        getForumOwnerAndRole, getCommentWithOwner, hfilt, hcfilt, maybeSingle,
        svcOk, errStatus, hfind, hcfind, h1, h2]
  · by_cases h1 : f.user_id = rid <;> by_cases h2 : role = "admin" <;>
      simp [updateForum, deleteForum, updateComment, deleteComment,
        getForumOwnerAndRole, getCommentWithOwner, hfilt, hcfilt, maybeSingle,
        svcOk, errStatus, hfind, hcfind, h1, h2]
  · by_cases h1 : f.user_id = rid <;> by_cases h2 : role = "admin" <;>
      by_cases h3 : c.user_id = rid <;>
      simp [updateForum, deleteForum, updateComment, deleteComment,
        getForumOwnerAndRole, getCommentWithOwner, hfilt, hcfilt, maybeSingle,
        svcOk, errStatus, hfind, hcfind, h1, h2, h3]

/-- C1 witness: on the concrete fixture, the owner (user 10) may update
forum 1 regardless of role, and user 10 (neither owner nor admin) gets a
403 deleting comment 2 owned by user 20. -/
theorem claim_C1_witness :
    svcOk (updateForum exDb 1 10 "user" (some "x") none) = true ∧
    errStatus (deleteComment exDb 2 10 "user") = some 403 := by
  have h := claim_C1_owner_or_admin_policy exDb 1 2 10 "user" (some "x") none "z"
    (by decide) (by decide)
  constructor
  · exact h.1.mpr ⟨⟨1, 10, "t", "c"⟩, by decide, Or.inl rfl⟩
  · exact h.2.2.2.2.2.2.2.mpr ⟨⟨2, 1, 20, "hi", none⟩, by decide, by decide, by decide⟩

/-- C2: update/delete on a forum or comment id that does not exist reports
status 404 for every requester, including one who is neither owner nor
admin — existence is decided before the ownership/role check. -/
theorem claim_C2_notfound_before_authz (db : DB) (fid cid rid : Nat) (role : String)
    (title content : Option String) (ccontent : String)
    (hf : db.forums.find? (fun f => f.id == fid) = none)
    (hc : db.forum_comments.find? (fun c => c.id == cid) = none) :
    errStatus (updateForum db fid rid role title content) = some 404
    ∧ errStatus (deleteForum db fid rid role) = some 404
    ∧ errStatus (updateComment db cid rid role ccontent) = some 404
    ∧ errStatus (deleteComment db cid rid role) = some 404 := by
  have hff := filter_eq_nil_of_find?_none _ _ hf
  have hcf := filter_eq_nil_of_find?_none _ _ hc
  refine ⟨?_, ?_, ?_, ?_⟩ <;>
    simp [updateForum, deleteForum, updateComment, deleteComment,
      getForumOwnerAndRole, getCommentWithOwner, hff, hcf, maybeSingle, errStatus]

/-- C2 witness: on the concrete fixture, ids 9 (forum) and 9 (comment) do
not exist, and all four operations report 404 for an unauthorized
requester. -/
theorem claim_C2_witness :
    errStatus (updateForum exDb 9 5 "user" (some "x") none) = some 404
    ∧ errStatus (deleteForum exDb 9 5 "user") = some 404
    ∧ errStatus (updateComment exDb 9 5 "user" "z") = some 404
    ∧ errStatus (deleteComment exDb 9 5 "user") = some 404 :=
  claim_C2_notfound_before_authz exDb 9 9 5 "user" (some "x") none "z"
    (by decide) (by decide)

/-- C3: the auth gate returns 401 in exactly three cases — missing/empty
bearer token (and then the verifier is never invoked: the call trace is
empty), verifier rejection, and no local user row for the verified
subject — and in every remaining case it attaches the principal
`{firebaseUid, supabaseUserId, role}` built from the decoded uid and the
resolved user row. -/
theorem claim_C3_auth_gate_cases (verify : String → Option DecodedToken) (db : DB)
    (authHeader : Option String) (hWF : UsersWF db) :
    (extractToken authHeader = none →
      requireAuth verify db authHeader =
        ⟨.reject 401 "Unauthorized: missing token", [], []⟩)
    ∧ (∀ t, extractToken authHeader = some t → verify t = none →
      requireAuth verify db authHeader =
        ⟨.reject 401 "Unauthorized: invalid token", [t], []⟩)
    ∧ (∀ t d, extractToken authHeader = some t → verify t = some d →
      db.users.find? (fun u => u.firebase_uid == d.uid) = none →
      (requireAuth verify db authHeader).outcome =
        .reject 401 "User tidak ditemukan di database")
    ∧ (∀ t d u, extractToken authHeader = some t → verify t = some d →
      db.users.find? (fun u => u.firebase_uid == d.uid) = some u →
      (requireAuth verify db authHeader).outcome = .accept ⟨d.uid, u.id, u.role⟩) := by
  refine ⟨?_, ?_, ?_, ?_⟩
  · intro h; simp [requireAuth, h]
  · intro t ht hv; simp [requireAuth, ht, hv]
  · intro t d ht hv hfind
    have hfilt := filter_eq_nil_of_find?_none _ _ hfind
    simp [requireAuth, ht, hv, hfilt, single]
  · intro t d u ht hv hfind
    rcases userLookup_cases db d.uid hWF with ⟨hn, _⟩ | ⟨u', hf', hfilt⟩
    · rw [hn] at hfind; cases hfind
    · rw [hf'] at hfind
      injection hfind with h
      subst h
      simp [requireAuth, ht, hv, hfilt, single]

/-- C3 witness: the four gate cases observed on concrete fixtures. -/
theorem claim_C3_witness :
    requireAuth exVerify exDb none =
      ⟨.reject 401 "Unauthorized: missing token", [], []⟩
    ∧ requireAuth exVerify exDb (some "Bearer bad") =
      ⟨.reject 401 "Unauthorized: invalid token", ["bad"], []⟩
    ∧ (requireAuth exVerify exEmptyDb (some "Bearer tok")).outcome =
      .reject 401 "User tidak ditemukan di database"
    ∧ (requireAuth exVerify exDb (some "Bearer tok")).outcome =
      .accept ⟨"u1", 7, "user"⟩ := by
  refine ⟨?_, ?_, ?_, ?_⟩
  · exact (claim_C3_auth_gate_cases exVerify exDb none (by decide)).1 (by decide)
  · exact (claim_C3_auth_gate_cases exVerify exDb (some "Bearer bad")
      (by decide)).2.1 "bad" (by decide) (by decide)
  · exact (claim_C3_auth_gate_cases exVerify exEmptyDb (some "Bearer tok")
      (by decide)).2.2.1 "tok" ⟨"u1"⟩ (by decide) (by decide) (by decide)
  · exact (claim_C3_auth_gate_cases exVerify exDb (some "Bearer tok")
      (by decide)).2.2.2 "tok" ⟨"u1"⟩ ⟨7, "u1", none, none, "user", none⟩
      (by decide) (by decide) (by decide)

/-- C4 counterexample: two requests that both carry a credential and both
fail after the presence check (invalid token vs. verified subject without
a local row) receive different response bodies — the gate does reveal
which sub-step failed, contradicting the claim that the responses are the
same. -/
theorem claim_C4_counterexample :
    (requireAuth exVerify exEmptyDb (some "Bearer bad")).outcome =
      .reject 401 "Unauthorized: invalid token"
    ∧ (requireAuth exVerify exEmptyDb (some "Bearer tok")).outcome =
      .reject 401 "User tidak ditemukan di database"
    ∧ (requireAuth exVerify exEmptyDb (some "Bearer bad")).outcome ≠
      (requireAuth exVerify exEmptyDb (some "Bearer tok")).outcome :=
  ⟨by decide, by decide, by decide⟩

/-- C4 amended: every rejection of the auth gate carries status 401 — the
status code is uniform across all failure sub-steps, but the message body
distinguishes invalid-token from unprovisioned-user failures. -/
theorem claim_C4_uniform_status_only (verify : String → Option DecodedToken)
    (db : DB) (authHeader : Option String) (s : Nat) (m : String)
    (h : (requireAuth verify db authHeader).outcome = .reject s m) : s = 401 := by
  unfold requireAuth at h
  split at h
  · simp at h; omega
  · split at h
    · simp at h; omega
    · split at h
      · simp at h; omega
      · simp at h

/-- C4 witness: the amended theorem applied to a concrete invalid-token
rejection. -/
theorem claim_C4_witness : (401 : Nat) = 401 :=
  claim_C4_uniform_status_only exVerify exEmptyDb (some "Bearer bad") 401
    "Unauthorized: invalid token" (by decide)

/-- C5: the auth gate issues at most one store operation — a read of the
`users` table by `firebase_uid` — and interpreting its trace against the
store leaves every table unchanged, whether it admits or rejects. -/
theorem claim_C5_gate_no_store_writes (verify : String → Option DecodedToken)
    (db : DB) (authHeader : Option String) :
    (∀ op ∈ (requireAuth verify db authHeader).storeOps, op.isRead = true)
    ∧ ((requireAuth verify db authHeader).storeOps = [] ∨
        ∃ uid, (requireAuth verify db authHeader).storeOps =
          [StoreOp.selectUsersByUid uid])
    ∧ applyOps db (requireAuth verify db authHeader).storeOps = db := by
  rcases hx : extractToken authHeader with _ | t
  · refine ⟨?_, .inl ?_, ?_⟩ <;> simp [requireAuth, hx, applyOps]
  · rcases hv : verify t with _ | d
    · refine ⟨?_, .inl ?_, ?_⟩ <;> simp [requireAuth, hx, hv, applyOps]
    · rcases hs : single (db.users.filter (fun u => u.firebase_uid == d.uid)) with e | u
      · refine ⟨?_, .inr ⟨d.uid, ?_⟩, ?_⟩ <;>
          simp [requireAuth, hx, hv, hs, applyOps, applyOp, StoreOp.isRead]
      · refine ⟨?_, .inr ⟨d.uid, ?_⟩, ?_⟩ <;>
          simp [requireAuth, hx, hv, hs, applyOps, applyOp, StoreOp.isRead]

/-- C5 witness: on the concrete fixture the gate's only operation is the
read of `users` by uid, and interpreting the trace leaves the store as it
was. -/
theorem claim_C5_witness :
    StoreOp.isRead (StoreOp.selectUsersByUid "u1") = true
    ∧ applyOps exDb (requireAuth exVerify exDb (some "Bearer tok")).storeOps = exDb := by
  refine ⟨?_, (claim_C5_gate_no_store_writes exVerify exDb (some "Bearer tok")).2.2⟩
  exact (claim_C5_gate_no_store_writes exVerify exDb (some "Bearer tok")).1
    (StoreOp.selectUsersByUid "u1") (by decide)

/-- C6 counterexample: a nutrition-summary request whose store call fails
gets status 200 with the zero summary, not the claimed 500 — the service
swallows the store error. -/
theorem claim_C6_counterexample :
    routeNutritionSummary (some "u1") (some "2024-05-01")
        ⟨none, some "connection error"⟩ = ⟨200, some ⟨0, 0, 0⟩, none⟩
    ∧ (routeNutritionSummary (some "u1") (some "2024-05-01")
        ⟨none, some "connection error"⟩).status ≠ 500 :=
  ⟨by decide, by decide⟩

/-- C6 amended: when the store call inside `getDailyNutritionSummary`
fails, the error is swallowed and the route answers 200 with the zero
summary `{protein: 0, carbs: 0, fat: 0}`; the route's 500 branch cannot
fire on a store error because the service catches it. -/
theorem claim_C6_store_failure_swallowed (userId date : Option String)
    (res : SupaResult (List RpcNutritionRow)) (e : String)
    (he : res.error = some e) (h1 : jsFalsyStr userId = false)
    (h2 : jsFalsyStr date = false) :
    routeNutritionSummary userId date res = ⟨200, some ⟨0, 0, 0⟩, none⟩ := by
  simp [routeNutritionSummary, h1, h2, getDailyNutritionSummary, he]

/-- C6 witness: even with rows present alongside the error flag, the
response is 200 with zeros. -/
theorem claim_C6_witness :
    routeNutritionSummary (some "u2") (some "2024-06-01")
      ⟨some [⟨some 1, some 2, some 3⟩], some "boom"⟩ = ⟨200, some ⟨0, 0, 0⟩, none⟩ :=
  claim_C6_store_failure_swallowed (some "u2") (some "2024-06-01")
    ⟨some [⟨some 1, some 2, some 3⟩], some "boom"⟩ "boom" (by decide) (by decide)
    (by decide)

/-- C7: after inserting the food log {userId u1, date 2024-05-01, foodName
Rice, calories 200}, reading the logs of u1 on that date yields a row with
calories 200 stored under `food_name_custom = "Rice"`. -/
theorem claim_C7_food_log_roundtrip (db : DB) :
    ∃ r ∈ getFoodLogsByDate (addFoodLog db "u1" "2024-05-01" "Rice" 200 none).2
        "u1" "2024-05-01",
      r.calories = 200 ∧ r.food_name_custom = "Rice" := by
  refine ⟨⟨db.nextFoodLogId, "u1", "2024-05-01", "Rice", 200, none, db.clock⟩,
    ?_, rfl, rfl⟩
  simp [getFoodLogsByDate, mem_sortByLoggedAt, addFoodLog, List.mem_filter]

/-- Evaluation lemma: the non-empty branch of `searchFoodsByName`. -/
theorem searchFoodsByName_pos (catalog : List MakananRow) (query : String)
    (limit : Nat) (h : trimChars query.data ≠ []) :
    searchFoodsByName catalog query limit =
      ([StoreOp.selectMakanan],
        (catalog.filter (fun m =>
          ilikeContains m.name.data (firstWordChars (trimChars query.data)))).take limit) := by
  simp [searchFoodsByName, h]

/-- C8: `GET /api/foods/search` with an absent, empty or whitespace-only
query answers 200 with the unfiltered catalog truncated to `limit`
(default 10); with a non-empty query it answers 200 with the name-filtered
search result under default limit 5, never more than that many rows. -/
theorem claim_C8_search_empty_query (catalog : List MakananRow)
    (query : Option String) (limit : Option Nat) :
    ((query = none ∨ ∃ q, query = some q ∧ trimChars q.data = []) →
      routeFoodsSearch catalog query limit =
        ⟨200, some (catalog.take (limit.getD 10)), none⟩)
    ∧ (∀ q, query = some q → trimChars q.data ≠ [] →
      routeFoodsSearch catalog query limit =
        ⟨200, some ((searchFoodsByName catalog q (limit.getD 5)).2), none⟩
      ∧ ((searchFoodsByName catalog q (limit.getD 5)).2).length ≤ limit.getD 5) := by
  constructor
  · rintro (rfl | ⟨q, rfl, hq⟩)
    · simp [routeFoodsSearch, getAllFoods]
    · simp [routeFoodsSearch, getAllFoods, hq]
  · rintro q rfl hq
    have hne : (trimChars q.data).isEmpty = false := by
      cases htc : trimChars q.data with
      | nil => exact absurd htc hq
      | cons a t => rfl
    constructor
    · simp [routeFoodsSearch, hne]
    · rw [searchFoodsByName_pos catalog q (limit.getD 5) hq]
      exact List.length_take_le _ _

/-- C8 witness: on the concrete catalog, a whitespace query returns the
whole catalog (limit 10) and a non-empty query returns the filtered
search result. -/
theorem claim_C8_witness :
    routeFoodsSearch exCatalog (some "   ") none =
      ⟨200, some (exCatalog.take 10), none⟩
    ∧ routeFoodsSearch exCatalog (some "ayam") none =
      ⟨200, some ((searchFoodsByName exCatalog "ayam" 5).2), none⟩ := by
  constructor
  · exact (claim_C8_search_empty_query exCatalog (some "   ") none).1
      (.inr ⟨"   ", rfl, by decide⟩)
  · exact ((claim_C8_search_empty_query exCatalog (some "ayam") none).2
      "ayam" rfl (by decide)).1

/-- C9: syncing an already-provisioned `firebase_uid` returns the existing
row's id with the store untouched (the email/username arguments are
ignored); syncing an unknown uid inserts exactly one new row, whose
username defaults to the part of the email before the `@` when no username
was supplied. -/
theorem claim_C9_sync_idempotent (db : DB) (uid : String)
    (email username : Option String) (hWF : UsersWF db) (huid : uid ≠ "") :
    (∀ u, db.users.find? (fun r => r.firebase_uid == uid) = some u →
      syncFirebaseUser db uid email username = .ok (u.id, db))
    ∧ (db.users.find? (fun r => r.firebase_uid == uid) = none →
      syncFirebaseUser db uid email username =
        .ok (db.nextUserId,
          { db with
              users := db.users ++
                [{ id := db.nextUserId, firebase_uid := uid, email := email,
                   username := effectiveUsernameOf username email,
                   role := db.defaultRole, daily_calorie_target := none }],
              nextUserId := db.nextUserId + 1 }))
    ∧ (∀ e, username = none → email = some e → e ≠ "" →
        effectiveUsernameOf username email = some (emailLocalPart e)) := by
  refine ⟨?_, ?_, ?_⟩
  · intro u hfind
    rcases userLookup_cases db uid hWF with ⟨hn, _⟩ | ⟨u', hf', hfilt⟩
    · rw [hn] at hfind; cases hfind
    · rw [hf'] at hfind
      injection hfind with h
      subst h
      simp [syncFirebaseUser, huid, hfilt, maybeSingle]
  · intro hfind
    have hfilt := filter_eq_nil_of_find?_none _ _ hfind
    simp [syncFirebaseUser, huid, hfilt, maybeSingle]
  · intro e hu he hne
    subst hu
    subst he
    simp [effectiveUsernameOf, jsStringOr, jsTruthy, hne]

/-- C9 witness: re-syncing uid `u1` returns id 7 with the store unchanged
even under different email/username; syncing fresh uid `u2` appends one
row whose username is the email's local part. -/
theorem claim_C9_witness :
    syncFirebaseUser exDb "u1" (some "other@mail.com") (some "zz") = .ok (7, exDb)
    ∧ syncFirebaseUser exDb "u2" (some "ab@mail.com") none =
      .ok (100, { exDb with
        users := exDb.users ++ [⟨100, "u2", some "ab@mail.com", some "ab", "user", none⟩],
        nextUserId := 101 })
    ∧ effectiveUsernameOf none (some "ab@mail.com") = some "ab" := by
  have h1 := claim_C9_sync_idempotent exDb "u1" (some "other@mail.com") (some "zz")
    (by decide) (by decide)
  have h2 := claim_C9_sync_idempotent exDb "u2" (some "ab@mail.com") none
    (by decide) (by decide)
  refine ⟨?_, ?_, ?_⟩
  · exact h1.1 ⟨7, "u1", none, none, "user", none⟩ (by decide)
  · have hv := h2.2.1 (by decide)
    have he : effectiveUsernameOf none (some "ab@mail.com") = some "ab" := by decide
    rw [he] at hv
    exact hv
  · exact h2.2.2 "ab@mail.com" rfl rfl (by decide)

/-- C10: a query that trims to empty makes `searchFoodsByName` return the
empty list with no store call at all; a non-empty query is matched against
only its first whitespace-delimited word (the result coincides with
searching that word alone), every returned row matching it as a
case-insensitive substring of the name. -/
theorem claim_C10_first_word_search (catalog : List MakananRow) (query : String)
    (limit : Nat) :
    (trimChars query.data = [] → searchFoodsByName catalog query limit = ([], []))
    ∧ (trimChars query.data ≠ [] →
        (searchFoodsByName catalog query limit).2 =
          (searchFoodsByName catalog
            (String.mk (firstWordChars (trimChars query.data))) limit).2
        ∧ ∀ m ∈ (searchFoodsByName catalog query limit).2,
            ilikeContains m.name.data (firstWordChars (trimChars query.data)) = true) := by
  constructor
  · intro h; simp [searchFoodsByName, h]
  · intro h
    set w := firstWordChars (trimChars query.data) with hw
    have hmemw : ∀ c ∈ w, c.isWhitespace = false := by
      intro c hc
      have hc' := List.mem_takeWhile_imp hc
      simpa using hc'
    have hfw : firstWordChars w = w :=
      List.takeWhile_eq_self_iff.mpr (fun a ha => by simp [hmemw a ha])
    have hdw : w.dropWhile Char.isWhitespace = w :=
      dropWhile_eq_self_of_forall _ _ hmemw
    have hdwr : w.reverse.dropWhile Char.isWhitespace = w.reverse :=
      dropWhile_eq_self_of_forall _ _ (fun a ha => hmemw a (List.mem_reverse.mp ha))
    have htw : trimChars w = w := by
      unfold trimChars
      rw [hdwr, List.reverse_reverse, hdw]
    have hhead : ((trimChars query.data).head h).isWhitespace = false :=
      List.head_dropWhile_not Char.isWhitespace
        ((query.data.reverse.dropWhile Char.isWhitespace).reverse) h
    have hne : w ≠ [] := by
      rw [hw]
      exact takeWhile_ne_nil_of_head _ _ h (by simp [hhead])
    have hq2 : trimChars (String.mk w).data ≠ [] := by
      show trimChars w ≠ []
      rw [htw]
      exact hne
    have hfw2 : firstWordChars (trimChars (String.mk w).data) = w := by
      show firstWordChars (trimChars w) = w
      rw [htw, hfw]
    constructor
    · rw [searchFoodsByName_pos catalog query limit h,
        searchFoodsByName_pos catalog (String.mk w) limit hq2, hfw2, ← hw]
    · intro m hm
      rw [searchFoodsByName_pos catalog query limit h] at hm
      have hm' : m ∈ catalog.filter
          (fun m => ilikeContains m.name.data (firstWordChars (trimChars query.data))) :=
        List.take_subset _ _ hm
      exact (List.mem_filter.mp hm').2

/-- C10 witness: a whitespace-only query yields no rows and no store call;
searching "nasi  goreng pedas" coincides with searching its first word. -/
theorem claim_C10_witness :
    searchFoodsByName exCatalog "   " 5 = ([], [])
    ∧ (searchFoodsByName exCatalog "nasi  goreng pedas" 5).2 =
      (searchFoodsByName exCatalog
        (String.mk (firstWordChars (trimChars ("nasi  goreng pedas").data))) 5).2 := by
  constructor
  · exact (claim_C10_first_word_search exCatalog "   " 5).1 (by decide)
  · exact ((claim_C10_first_word_search exCatalog "nasi  goreng pedas" 5).2
      (by decide)).1

end PiringSehat
